import Mathlib

/-!
Verification of the balancer commands scheduler and the sharding data
transform cumulative metrics registry, as specified in spec.md and
exercised by balancer_commands_scheduler_test.cpp and the cumulative
metrics test.  The implementation sources of the scheduler
(balancer_commands_scheduler_impl.cpp) and of the metrics registry
(sharding_data_transform_cumulative_metrics.cpp) are not part of the
repository snapshot; the definitions below are therefore modelled from
the specification (sections 3-7) and are kept faithful to the observable
behaviour pinned by the tests.
-/

namespace BalancerScheduler

/-- Modelled from the spec: the five supported operation kinds (spec section 3,
`kind`), named after the submission entry points of the scheduler
(`requestMoveChunk`, `requestMergeChunks`, `requestSplitChunk`,
`requestAutoSplitVector`, `requestDataSize`).  The implementation file
`balancer_commands_scheduler_impl.cpp` is missing from the snapshot. -/
inductive CommandKind where
  | moveChunk
  | mergeChunks
  | splitChunk
  | autoSplitVector
  | dataSize
deriving DecidableEq, Repr

def CommandKind.tag : CommandKind → Nat
  | .moveChunk => 0
  | .mergeChunks => 1
  | .splitChunk => 2
  | .autoSplitVector => 3
  | .dataSize => 4

/-- Modelled from the spec: a submitted unit of work (spec section 3,
`CommandRequest`): kind, namespace, target shard, and the kind-specific
parameters (abstracted as a sequence of encoded fields). -/
structure CommandInfo where
  kind : CommandKind
  nss : String
  target : String
  payload : List Nat
deriving DecidableEq, Repr

/-- Modelled from the spec: `requiresDistributedLock` is true exactly for the
operations that mutate ownership/metadata of a namespace (move, merge, split)
and false for the read-only probes (spec section 3). -/
def CommandInfo.requiresDistributedLock (c : CommandInfo) : Bool :=
  match c.kind with
  | .moveChunk | .mergeChunks | .splitChunk => true
  | .autoSplitVector | .dataSize => false

def encodeString (s : String) : List Nat :=
  s.length :: s.toList.map Char.toNat

/-- Modelled from the spec: the canonical wire encoding of a command (spec
section 4.1).  It is a pure function of the logical fields, hence
deterministic and reproducible, as the specification requires. -/
def serialise (c : CommandInfo) : List Nat :=
  c.kind.tag :: encodeString c.nss ++ encodeString c.target ++ c.payload

/-- Modelled from the spec: the shape of one durable log record (spec
section 4.2 and section 6): namespace, target shard, requires-lock flag and
the encoded command payload. -/
structure PersistedBalancerCommand where
  nss : String
  target : String
  requiresDistributedLock : Bool
  remoteCommand : List Nat
deriving DecidableEq, Repr

/-- Modelled from the spec: provenance of a request (spec section 3,
`origin`). -/
inductive Origin where
  | fresh
  | recoveredFromLog
deriving DecidableEq, Repr

/-- Modelled from the spec: an in-memory queued request.  Fresh requests carry
the canonical serialisation of their submission; recovered requests carry the
encoded payload read back from the durable log (spec sections 3 and 4.4). -/
structure RequestEntry where
  id : Nat
  nss : String
  target : String
  requiresLock : Bool
  remoteCommand : List Nat
  origin : Origin
deriving DecidableEq, Repr

/-- Modelled from the spec: the error taxonomy of spec section 7, restricted
to the conditions the scheduler itself produces. -/
inductive SchedulerError where
  | balancerInterruptedStopped
  | balancerInterruptedStopping
  | lockBusy (nss : String)
  | shardNotFound (shard : String)
  | remote (code : Nat) (msg : String)
deriving DecidableEq, Repr

abbrev Outcome := Except SchedulerError Unit

instance : DecidableEq Outcome := fun a b =>
  match a, b with
  | Except.ok x, Except.ok y => isTrue (by cases x; cases y; rfl)
  | Except.ok _, Except.error _ => isFalse (by simp)
  | Except.error _, Except.ok _ => isFalse (by simp)
  | Except.error x, Except.error y =>
    if h : x = y then isTrue (by rw [h]) else isFalse (by simp [h])

/-- Modelled from the spec: the scheduler state (spec sections 4.4 and 5):
lifecycle flag, submission gate, durable log (handle/record pairs), in-memory
queue, the set of namespaces whose distributed lock is currently held, the
dispatched requests awaiting a response, the resolved futures, the sequence of
encodings handed to the remote executor, and the next fresh request id. -/
structure SchedulerState where
  running : Bool
  gateOpen : Bool
  persisted : List (Nat × PersistedBalancerCommand)
  queue : List RequestEntry
  locked : List String
  outstanding : List RequestEntry
  resolved : List (Nat × Outcome)
  network : List (List Nat)
  nextId : Nat
deriving DecidableEq, Repr

def removePersisted (l : List (Nat × PersistedBalancerCommand)) (h : Nat) :
    List (Nat × PersistedBalancerCommand) :=
  l.filter (fun p => p.1 != h)

/-- Modelled from the spec: the single-attempt, bounded-timeout distributed
lock acquisition (spec section 4.3): fails fast when the resource is held,
otherwise grants a scoped lock. -/
def tryAcquireDistLock (locked : List String) (nss : String) :
    Option (List String) :=
  if nss ∈ locked then none else some (nss :: locked)

/-- Modelled from the spec: submission (spec sections 4.4 and 5).  While not
Running the future is immediately failed with a BalancerInterrupted rejection
and nothing is persisted; otherwise the command is durably recorded (namespace,
target, requires-lock flag, canonical serialisation) and enqueued. -/
def submit (st : SchedulerState) (c : CommandInfo) : SchedulerState :=
  if st.running = false then
    { st with
      resolved := (st.nextId, Except.error SchedulerError.balancerInterruptedStopped)
        :: st.resolved,
      nextId := st.nextId + 1 }
  else
    { st with
      persisted := st.persisted ++
        [(st.nextId, { nss := c.nss, target := c.target,
                       requiresDistributedLock := c.requiresDistributedLock,
                       remoteCommand := serialise c })],
      queue := st.queue ++
        [{ id := st.nextId, nss := c.nss, target := c.target,
           requiresLock := c.requiresDistributedLock,
           remoteCommand := serialise c, origin := Origin.fresh }],
      nextId := st.nextId + 1 }

/-- Modelled from the spec: one worker iteration over the head of the queue
(spec section 4.4 steps 2-5).  While the submission gate is closed nothing is
dequeued.  Otherwise: a lock-requiring command whose namespace lock is busy
resolves with LockBusy and its record is removed (no retry); an unresolvable
target resolves with ShardNotFound, removes the record and releases the
just-acquired lock; otherwise the command is dispatched with its encoding. -/
def workerStep (topo : List String) (st : SchedulerState) : SchedulerState :=
  if st.running = false ∨ st.gateOpen = false then st
  else
    match st.queue with
    | [] => st
    | e :: rest =>
      if e.requiresLock = true ∧ e.nss ∈ st.locked then
        { st with
          queue := rest,
          persisted := removePersisted st.persisted e.id,
          resolved := (e.id, Except.error (SchedulerError.lockBusy e.nss)) :: st.resolved }
      else if e.target ∈ topo then
        { st with
          queue := rest,
          locked := if e.requiresLock = true then e.nss :: st.locked else st.locked,
          outstanding := st.outstanding ++ [e],
          network := st.network ++ [e.remoteCommand] }
      else
        { st with
          queue := rest,
          persisted := removePersisted st.persisted e.id,
          resolved := (e.id, Except.error (SchedulerError.shardNotFound e.target))
            :: st.resolved }

/-- Modelled from the spec: completion of the head dispatched request (spec
section 4.4 steps 6-9): the held lock is released, the persisted record is
removed, and the future is fulfilled, regardless of outcome; a transport
error is surfaced verbatim. -/
def deliverResponse (st : SchedulerState) (resp : Except (Nat × String) Unit) :
    SchedulerState :=
  match st.outstanding with
  | [] => st
  | e :: rest =>
    { st with
      outstanding := rest,
      locked := if e.requiresLock = true then st.locked.erase e.nss else st.locked,
      persisted := removePersisted st.persisted e.id,
      resolved := (e.id,
        match resp with
        | Except.ok _ => Except.ok ()
        | Except.error err => Except.error (SchedulerError.remote err.1 err.2)) :: st.resolved }

/-- Modelled from the spec: `stop()` (spec section 4.4): stops accepting
submissions and cancels every still-queued command with a BalancerInterrupted
cancellation; dispatched commands are not aborted, and the durable records of
the cancelled commands remain for crash recovery. -/
def stop (st : SchedulerState) : SchedulerState :=
  { st with
    running := false,
    queue := [],
    resolved :=
      st.queue.map (fun e =>
        (e.id, Except.error SchedulerError.balancerInterruptedStopping)) ++ st.resolved }

/-- Modelled from the spec: `start()` (spec section 4.4): a no-op when already
Running; otherwise performs the recovery scan, re-enqueuing one command per
persisted record, reconstructed from the persisted fields without
re-persisting. -/
def start (st : SchedulerState) : SchedulerState :=
  if st.running = true then st
  else
    { st with
      running := true,
      queue := st.persisted.map (fun p =>
        { id := p.1, nss := p.2.nss, target := p.2.target,
          requiresLock := p.2.requiresDistributedLock,
          remoteCommand := p.2.remoteCommand, origin := Origin.recoveredFromLog }) }

/-- Modelled from the spec: the submission gate toggle (spec section 4.5),
independent of lifecycle state. -/
def setGate (b : Bool) (st : SchedulerState) : SchedulerState :=
  { st with gateOpen := b }

def initialState : SchedulerState :=
  { running := false, gateOpen := true, persisted := [], queue := [],
    locked := [], outstanding := [], resolved := [], network := [], nextId := 0 }

def startedState : SchedulerState :=
  { running := true, gateOpen := true, persisted := [], queue := [],
    locked := [], outstanding := [], resolved := [], network := [], nextId := 0 }

def startedGateClosed : SchedulerState :=
  { startedState with gateOpen := false }

/-- The shards known to the topology service in the test fixture
(`kShardList` in balancer_commands_scheduler_test.cpp). -/
def testTopology : List String := ["shard0", "shard1"]

def resolvedOutcome (st : SchedulerState) (i : Nat) : Option Outcome :=
  (st.resolved.find? (fun p => p.1 == i)).map Prod.snd

end BalancerScheduler

namespace CumulativeMetrics

/-- Modelled from the spec: one registered observer of the cumulative metrics
registry (spec section 6, metrics collaborator), exposing a unique id, a start
timestamp and a remaining-time value, as in
`ShardingDataTransformMetricsObserverInterface`. -/
structure ObserverMetrics where
  uuid : Nat
  startTimestamp : Int
  remainingTimeMillis : Int
deriving DecidableEq, Repr

/-- The ordering key used by the registry: by start timestamp, with the unique
id breaking ties. -/
def obsLe (a b : ObserverMetrics) : Prop :=
  a.startTimestamp < b.startTimestamp ∨
    (a.startTimestamp = b.startTimestamp ∧ a.uuid ≤ b.uuid)

instance (a b : ObserverMetrics) : Decidable (obsLe a b) := by
  unfold obsLe
  infer_instance

instance : IsTotal ObserverMetrics obsLe :=
  ⟨fun a b => by unfold obsLe; omega⟩

instance : IsTrans ObserverMetrics obsLe :=
  ⟨fun a b c hab hbc => by unfold obsLe at hab hbc ⊢; omega⟩

/-- Modelled from the spec: the state of the cumulative metrics registry
(`ShardingDataTransformCumulativeMetrics`, whose implementation file is
missing from the snapshot): the currently registered observers, kept ordered
by start timestamp. -/
structure Registry where
  observers : List ObserverMetrics
deriving DecidableEq, Repr

def emptyMetrics : Registry := { observers := [] }

/-- Modelled from the spec: `registerInstanceMetrics` inserts the observer
into the ordered collection of registered observers. -/
def registerInstanceMetrics (m : Registry) (o : ObserverMetrics) : Registry :=
  { observers := m.observers.orderedInsert obsLe o }

/-- Modelled from the spec: the deregistration function returned by
registration removes the observer (identified by its unique id) from the
collection. -/
def deregisterInstanceMetrics (m : Registry) (u : Nat) : Registry :=
  { observers := m.observers.filter (fun o => o.uuid != u) }

/-- Modelled from the spec: `getObservedMetricsCount` reports the number of
currently registered observers. -/
def getObservedMetricsCount (m : Registry) : Nat :=
  m.observers.length

/-- Modelled from the spec: `getOldestOperationRemainingTimeMillis` reports
the remaining time of the longest-running (minimum start timestamp)
registered operation, and 0 when none is registered
(`RemainingTimeReports0WhenEmpty`). -/
def getOldestOperationRemainingTimeMillis (m : Registry) : Int :=
  match m.observers with
  | [] => 0
  | o :: _ => o.remainingTimeMillis

/-- One registry operation: a registration or a deregistration by id. -/
inductive MetricsOp where
  | registerOp (o : ObserverMetrics)
  | deregisterOp (u : Nat)
deriving DecidableEq, Repr

def applyOp (m : Registry) : MetricsOp → Registry
  | MetricsOp.registerOp o => registerInstanceMetrics m o
  | MetricsOp.deregisterOp u => deregisterInstanceMetrics m u

def applyOps (m : Registry) : List MetricsOp → Registry
  | [] => m
  | op :: ops => applyOps (applyOp m op) ops

/-- The specification-side view of the same operation sequence: the plain
(unordered) collection of currently registered observers — each registration
adds one observer, each deregistration removes the observers carrying that
id. -/
def specApplyOp (s : List ObserverMetrics) : MetricsOp → List ObserverMetrics
  | MetricsOp.registerOp o => o :: s
  | MetricsOp.deregisterOp u => s.filter (fun o => o.uuid != u)

def specApplyOps (s : List ObserverMetrics) : List MetricsOp → List ObserverMetrics
  | [] => s
  | op :: ops => specApplyOps (specApplyOp s op) ops

end CumulativeMetrics

namespace BalancerScheduler

def moveCmd : CommandInfo :=
  { kind := CommandKind.moveChunk, nss := "testDb.testColl", target := "shard1",
    payload := [7, 3] }

def probeCmd : CommandInfo :=
  { kind := CommandKind.autoSplitVector, nss := "testDb.testColl", target := "shard0",
    payload := [4] }

def badTargetCmd : CommandInfo :=
  { kind := CommandKind.mergeChunks, nss := "testDb.testColl", target := "nonexistent",
    payload := [] }

/-- Claim C1: a command submitted while the submission gate is closed leaves
exactly one persisted record, carrying its namespace, target shard,
requires-distributed-lock flag and its canonical serialisation, before any
network attempt is observed (the worker cannot dispatch while the gate stays
closed). -/
theorem persisted_before_dispatch (c : CommandInfo) :
    (submit startedGateClosed c).persisted =
      [(0, { nss := c.nss, target := c.target,
             requiresDistributedLock := c.requiresDistributedLock,
             remoteCommand := serialise c })] ∧
    (submit startedGateClosed c).network = [] ∧
    ∀ topo : List String, workerStep topo (submit startedGateClosed c) =
      submit startedGateClosed c :=
  ⟨rfl, rfl, fun _ => rfl⟩

/-- Claim C2: crash-recovery round trip — submitting with the gate closed and
stopping resolves the future with the BalancerInterrupted cancellation and
leaves exactly one persisted record; after restart the reissued remote request
encoding is byte-identical to the canonical serialisation of the original
submission, and once that request succeeds no persisted record remains. -/
theorem crash_recovery_round_trip (c : CommandInfo) (h : c.target ∈ testTopology) :
    resolvedOutcome (stop (submit startedGateClosed c)) 0 =
      some (Except.error SchedulerError.balancerInterruptedStopping) ∧
    (stop (submit startedGateClosed c)).persisted.length = 1 ∧
    (workerStep testTopology
        (setGate true (start (stop (submit startedGateClosed c))))).network =
      [serialise c] ∧
    (deliverResponse
        (workerStep testTopology (setGate true (start (stop (submit startedGateClosed c)))))
        (Except.ok ())).persisted = [] := by
  simp [submit, stop, start, setGate, workerStep, deliverResponse, resolvedOutcome,
    removePersisted, startedGateClosed, startedState, initialState, h]

theorem crash_recovery_round_trip_witness :
    moveCmd.target ∈ testTopology ∧
    (workerStep testTopology
        (setGate true (start (stop (submit startedGateClosed moveCmd))))).network =
      [serialise moveCmd] ∧
    (deliverResponse
        (workerStep testTopology
          (setGate true (start (stop (submit startedGateClosed moveCmd)))))
        (Except.ok ())).persisted = [] :=
  ⟨by decide, (crash_recovery_round_trip moveCmd (by decide)).2.2.1,
    (crash_recovery_round_trip moveCmd (by decide)).2.2.2⟩

/-- Claim C3: for a lock-requiring command, the namespace's distributed lock
is released on every completion path (remote success and remote failure), so
a fresh single-attempt acquisition on the namespace succeeds afterwards. -/
theorem lock_released_on_completion (c : CommandInfo) (resp : Except (Nat × String) Unit)
    (h1 : c.requiresDistributedLock = true) (h2 : c.target ∈ testTopology) :
    (tryAcquireDistLock
      (deliverResponse (workerStep testTopology (submit startedState c)) resp).locked
      c.nss).isSome = true := by
  simp [submit, workerStep, deliverResponse, tryAcquireDistLock, startedState,
    initialState, h1, h2]

theorem lock_released_on_completion_witness :
    moveCmd.requiresDistributedLock = true ∧ moveCmd.target ∈ testTopology ∧
    (tryAcquireDistLock
      (deliverResponse (workerStep testTopology (submit startedState moveCmd))
        (Except.error (89, "network timeout"))).locked
      moveCmd.nss).isSome = true :=
  ⟨by decide, by decide,
    lock_released_on_completion moveCmd (Except.error (89, "network timeout"))
      (by decide) (by decide)⟩

/-- Claim C4: a lock-requiring command processed while the namespace lock is
held by a concurrent party resolves with LockBusy after the single bounded
acquisition attempt, and no persisted record (nor queued request) remains. -/
theorem lock_busy_resolves (c : CommandInfo) (h1 : c.requiresDistributedLock = true) :
    resolvedOutcome
      (workerStep testTopology (submit { startedState with locked := [c.nss] } c)) 0 =
      some (Except.error (SchedulerError.lockBusy c.nss)) ∧
    (workerStep testTopology (submit { startedState with locked := [c.nss] } c)).persisted
      = [] ∧
    (workerStep testTopology (submit { startedState with locked := [c.nss] } c)).queue
      = [] := by
  simp [submit, workerStep, resolvedOutcome, removePersisted, startedState,
    initialState, h1]

theorem lock_busy_resolves_witness :
    moveCmd.requiresDistributedLock = true ∧
    resolvedOutcome
      (workerStep testTopology (submit { startedState with locked := [moveCmd.nss] } moveCmd))
      0 = some (Except.error (SchedulerError.lockBusy moveCmd.nss)) :=
  ⟨by decide, (lock_busy_resolves moveCmd (by decide)).1⟩

/-- Claim C5: a submission made while the scheduler is stopped immediately
resolves with the BalancerInterrupted rejection, persists nothing, and takes
no distributed lock on the command's namespace. -/
theorem submit_while_stopped_rejected (c : CommandInfo) :
    resolvedOutcome (submit initialState c) 0 =
      some (Except.error SchedulerError.balancerInterruptedStopped) ∧
    (submit initialState c).persisted = [] ∧
    (submit initialState c).locked = [] ∧
    (tryAcquireDistLock (submit initialState c).locked c.nss).isSome = true := by
  simp [submit, resolvedOutcome, tryAcquireDistLock, initialState]

/-- Claim C6: stopping the scheduler while a submitted command is still queued
and undispatched fulfils that command's future with the BalancerInterrupted
cancellation, and the distributed lock on its namespace is not left held (a
fresh acquisition succeeds). -/
theorem stop_cancels_queued (c : CommandInfo) :
    resolvedOutcome (stop (submit startedGateClosed c)) 0 =
      some (Except.error SchedulerError.balancerInterruptedStopping) ∧
    (tryAcquireDistLock (stop (submit startedGateClosed c)).locked c.nss).isSome = true := by
  simp [submit, stop, resolvedOutcome, tryAcquireDistLock, startedGateClosed,
    startedState, start, setGate, initialState]

/-- Claim C7: when the remote executor resolves a dispatched command with a
transport/timeout error, the command's future resolves with exactly that
error, surfaced verbatim, and the scheduler issues no further network request
(no retry). -/
theorem transport_error_surfaced (c : CommandInfo) (code : Nat) (msg : String)
    (h2 : c.target ∈ testTopology) :
    resolvedOutcome
      (deliverResponse (workerStep testTopology (submit startedState c))
        (Except.error (code, msg))) 0 =
      some (Except.error (SchedulerError.remote code msg)) ∧
    (deliverResponse (workerStep testTopology (submit startedState c))
        (Except.error (code, msg))).network =
      (workerStep testTopology (submit startedState c)).network ∧
    (workerStep testTopology (submit startedState c)).network.length = 1 := by
  simp [submit, workerStep, deliverResponse, resolvedOutcome, startedState,
    initialState, h2]

theorem transport_error_surfaced_witness :
    moveCmd.target ∈ testTopology ∧
    resolvedOutcome
      (deliverResponse (workerStep testTopology (submit startedState moveCmd))
        (Except.error (89, "Mock error: network timed out"))) 0 =
      some (Except.error (SchedulerError.remote 89 "Mock error: network timed out")) :=
  ⟨by decide,
    (transport_error_surfaced moveCmd 89 "Mock error: network timed out" (by decide)).1⟩

/-- Claim C8: a command whose target shard is unknown to the topology service
resolves with a ShardNotFound error, its persisted record is removed, and no
lock on its namespace remains held. -/
theorem shard_not_found_resolves (c : CommandInfo) (h : c.target ∉ testTopology) :
    resolvedOutcome (workerStep testTopology (submit startedState c)) 0 =
      some (Except.error (SchedulerError.shardNotFound c.target)) ∧
    (workerStep testTopology (submit startedState c)).persisted = [] ∧
    (tryAcquireDistLock (workerStep testTopology (submit startedState c)).locked
      c.nss).isSome = true := by
  simp [submit, workerStep, resolvedOutcome, removePersisted, tryAcquireDistLock,
    startedState, initialState, h]

theorem shard_not_found_resolves_witness :
    badTargetCmd.target ∉ testTopology ∧
    resolvedOutcome (workerStep testTopology (submit startedState badTargetCmd)) 0 =
      some (Except.error (SchedulerError.shardNotFound badTargetCmd.target)) :=
  ⟨by decide, (shard_not_found_resolves badTargetCmd (by decide)).1⟩

end BalancerScheduler

namespace CumulativeMetrics

theorem applyOps_sorted_perm (ops : List MetricsOp) (m : Registry)
    (s : List ObserverMetrics) (hs : m.observers.Sorted obsLe)
    (hp : m.observers.Perm s) :
    ((applyOps m ops).observers).Sorted obsLe ∧
      (applyOps m ops).observers.Perm (specApplyOps s ops) := by
  induction ops generalizing m s with
  | nil => exact ⟨hs, hp⟩
  | cons op ops ih =>
    cases op with
    | registerOp o =>
      exact ih _ (specApplyOp s (MetricsOp.registerOp o))
        (hs.orderedInsert o _)
        ((List.perm_orderedInsert obsLe o m.observers).trans (hp.cons o))
    | deregisterOp u =>
      exact ih _ (specApplyOp s (MetricsOp.deregisterOp u))
        (hs.filter _) (hp.filter _)

theorem sorted_cons_min_start (o : ObserverMetrics) (l : List ObserverMetrics)
    (h : (o :: l).Sorted obsLe) :
    ∀ o' ∈ o :: l, o.startTimestamp ≤ o'.startTimestamp := by
  intro o' ho'
  rcases List.mem_cons.mp ho' with h1 | h1
  · exact le_of_eq (by rw [h1])
  · have h2 := List.rel_of_sorted_cons h o' h1
    unfold obsLe at h2
    omega

/-- Claim C9: for every sequence of observer registrations and
deregistrations starting from the empty registry, the observed-metrics count
equals the number of currently registered observers (each registration adds
one, each deregistration removes the matching observers), and whenever any
observer remains registered the oldest-operation query returns the
remaining-time value of a currently registered observer whose start timestamp
is minimal (ties on start timestamp included). -/
theorem oldest_query_matches_min (ops : List MetricsOp) :
    getObservedMetricsCount (applyOps emptyMetrics ops) = (specApplyOps [] ops).length ∧
    (specApplyOps [] ops ≠ [] →
      ∃ o, o ∈ specApplyOps [] ops ∧
        (∀ o' ∈ specApplyOps [] ops, o.startTimestamp ≤ o'.startTimestamp) ∧
        getOldestOperationRemainingTimeMillis (applyOps emptyMetrics ops) =
          o.remainingTimeMillis) := by
  obtain ⟨hs, hp⟩ := applyOps_sorted_perm ops emptyMetrics []
    List.sorted_nil (List.Perm.refl _)
  refine ⟨hp.length_eq, fun hne => ?_⟩
  cases hm : (applyOps emptyMetrics ops).observers with
  | nil =>
    rw [hm] at hp
    exact absurd (hp.symm.eq_nil) hne
  | cons o t =>
    refine ⟨o, ?_, ?_, ?_⟩
    · exact hp.mem_iff.mp (by rw [hm]; exact List.mem_cons_self o t)
    · intro o' ho'
      have ho2 : o' ∈ (applyOps emptyMetrics ops).observers := hp.mem_iff.mpr ho'
      rw [hm] at ho2
      exact sorted_cons_min_start o t (hm ▸ hs) o' ho2
    · simp [getOldestOperationRemainingTimeMillis, hm]

theorem oldest_query_matches_min_witness :
    specApplyOps []
      [MetricsOp.registerOp { uuid := 2, startTimestamp := 9, remainingTimeMillis := 4 },
       MetricsOp.registerOp { uuid := 1, startTimestamp := 5, remainingTimeMillis := 7 }] ≠ [] ∧
    (∃ o, o ∈ specApplyOps []
        [MetricsOp.registerOp { uuid := 2, startTimestamp := 9, remainingTimeMillis := 4 },
         MetricsOp.registerOp { uuid := 1, startTimestamp := 5, remainingTimeMillis := 7 }] ∧
      (∀ o' ∈ specApplyOps []
          [MetricsOp.registerOp { uuid := 2, startTimestamp := 9, remainingTimeMillis := 4 },
           MetricsOp.registerOp { uuid := 1, startTimestamp := 5, remainingTimeMillis := 7 }],
        o.startTimestamp ≤ o'.startTimestamp) ∧
      getOldestOperationRemainingTimeMillis (applyOps emptyMetrics
        [MetricsOp.registerOp { uuid := 2, startTimestamp := 9, remainingTimeMillis := 4 },
         MetricsOp.registerOp { uuid := 1, startTimestamp := 5, remainingTimeMillis := 7 }]) =
        o.remainingTimeMillis) :=
  ⟨by decide,
    (oldest_query_matches_min
      [MetricsOp.registerOp { uuid := 2, startTimestamp := 9, remainingTimeMillis := 4 },
       MetricsOp.registerOp { uuid := 1, startTimestamp := 5, remainingTimeMillis := 7 }]).2
      (by decide)⟩

/-- Claim C10: with no observers registered, the oldest-operation query
returns 0 (not a failure or sentinel) and the observed-metrics count is 0. -/
theorem empty_metrics_defaults :
    getObservedMetricsCount emptyMetrics = 0 ∧
    getOldestOperationRemainingTimeMillis emptyMetrics = 0 :=
  ⟨rfl, rfl⟩

end CumulativeMetrics
